import Mathlib

/-!
Shallow embedding of the resume-analysis application:

* `extract_text_from_file` (app.py, lines 62-111): cascading text extraction
  for PDF, DOCX and plain-text inputs;
* `APIKeyManager` (utils/api_key_manager.py): layered credential loading and
  circular rotation;
* the bulk-analysis loop behind the Analyze All Resumes button
  (app.py, lines 205-319), modelled as a fold over the uploaded documents.

Presentation-only effects (progress bar, status text, logging, on-screen
result rendering) are not part of the model; the counters, the failure list
and the accumulated result list are.
-/

namespace HR

/-! ## Text extraction (app.py, extract_text_from_file) -/

/-- Python string truthiness of `s.strip()`: `s.strip()` is falsy exactly when
every character of `s` is whitespace (including the empty string). -/
def isBlank (s : String) : Bool := s.data.all Char.isWhitespace

/-- `bs` is a leading segment of `as` (character lists). -/
def listStartsWith : List Char → List Char → Bool
  | _, [] => true
  | [], _ :: _ => false
  | a :: as, b :: bs => a = b && listStartsWith as bs

/-- Containment of `pat` in `l`, scanning every start position. -/
def charsContain (l pat : List Char) : Bool :=
  match l with
  | [] => listStartsWith [] pat
  | _ :: t => listStartsWith l pat || charsContain t pat

/-- Python `pat in s` on strings. -/
def strContains (s pat : String) : Bool := charsContain s.data pat.data

/-- Python `s.endswith(pat)`. -/
def strEndsWith (s pat : String) : Bool :=
  listStartsWith s.data.reverse pat.data.reverse

/-- Behaviour of one PDF page under `page.extract_text()`: it can return the
page text, return no text (Python `None`, absorbed by `or ""`), or throw. -/
inductive PageRead where
  | text (s : String)
  | noText
  | raise (e : String)
deriving DecidableEq

/-- The page loop of either PDF strategy, accumulating `text += page_text or ""`.
A page that returns no text contributes nothing; a page that throws aborts the
whole loop, discarding the accumulated text (the exception is caught at the
strategy level by the bare `except`). -/
def readPagesFrom (acc : String) : List PageRead → Except String String
  | [] => Except.ok acc
  | PageRead.text s :: rest => readPagesFrom (acc ++ s) rest
  | PageRead.noText :: rest => readPagesFrom acc rest
  | PageRead.raise e :: _ => Except.error e

/-- Run the page loop starting from the empty accumulator (`text = ""`). -/
def readPages (ps : List PageRead) : Except String String :=
  readPagesFrom "" ps

/-- One PDF strategy (PyPDF2 or pdfplumber): opening the document may throw,
then the page loop runs; the strategy yields `some text` exactly when nothing
threw and the concatenated text is non-blank after trimming. In every other
case control falls through to the next alternative (`except: pass`, or the
blank-text check failing). -/
def tryPdfStrategy (pages : Except String (List PageRead)) : Option String :=
  match pages with
  | Except.error _ => none
  | Except.ok ps =>
    match readPages ps with
    | Except.error _ => none
    | Except.ok t => if isBlank t then none else some t

/-- An uploaded file, as the extraction code observes it. Reading the declared
media type may itself throw (duck-typed attribute access), which is what the
outermost handler of `extract_text_from_file` catches. The two PDF fields model
what each library sees when opening the same bytes; `docxParagraphs` models
`Document(...)` (error = the container cannot be opened) followed by reading
the paragraph texts; `decodedText` models `getvalue().decode("utf-8")`. -/
structure UploadedFile where
  name : String
  ftype : Except String String
  pypdf2Pages : Except String (List PageRead)
  pdfplumberPages : Except String (List PageRead)
  docxParagraphs : Except String (List String)
  decodedText : Except String String

/-- The DOCX branch guard: `"wordprocessingml" in uploaded_file.type or
uploaded_file.name.endswith(".docx")`. -/
def isDocxType (t : String) (name : String) : Bool :=
  strContains t "wordprocessingml" || strEndsWith name ".docx"

/-- The body of `extract_text_from_file` after the media type has been read:
the dispatch over PDF / DOCX / plain-text branches. Every branch returns a
`(text, success, error)` triple; branch-local exceptions are already folded
into the `Except` fields of `UploadedFile`. -/
def extractDispatch (f : UploadedFile) (t : String) : String × Bool × Option String :=
  if t = "application/pdf" then
    match tryPdfStrategy f.pypdf2Pages with
    | some text => (text, true, none)
    | none =>
      match tryPdfStrategy f.pdfplumberPages with
      | some text => (text, true, none)
      | none => ("", false, some "Could not extract text from PDF")
  else if isDocxType t f.name then
    match f.docxParagraphs with
    | Except.error e => ("", false, some ("Error reading DOCX: " ++ e))
    | Except.ok paras =>
      if isBlank (String.intercalate "\n" paras) then ("", false, some "DOCX file is empty")
      else (String.intercalate "\n" paras, true, none)
  else
    match f.decodedText with
    | Except.error e => ("", false, some ("Error reading text file: " ++ e))
    | Except.ok text =>
      if isBlank text then ("", false, some "Text file is empty")
      else (text, true, none)

/-- app.py, lines 62-111. The outermost `try`/`except Exception` converts any
exception that escapes the dispatch (here: reading the media type) into the
`Unexpected error` failure triple, so the function always returns a triple. -/
def extract_text_from_file (f : UploadedFile) : String × Bool × Option String :=
  match f.ftype with
  | Except.error e => ("", false, some ("Unexpected error: " ++ e))
  | Except.ok t => extractDispatch f t

/-! ## Credential management (utils/api_key_manager.py) -/

/-- The placeholder value ignored when reading Streamlit secrets. -/
def placeholder : String := "your_first_api_key_here"

/-- `f"GROQ_API_KEY_{i}"`. -/
def keyName (i : Nat) : String := "GROQ_API_KEY_" ++ toString i

/-- The two read-only key/value sources the constructor consults.
`secretsAvailable` models `streamlit` importing successfully with a non-empty
`st.secrets`; `secrets k = none` models the per-key `KeyError`. `env` models
`os.getenv` (`none` = unset). Python string truthiness makes the empty string
count as absent. -/
structure Environment where
  secretsAvailable : Bool
  secrets : String → Option String
  env : String → Option String

/-- The Streamlit-secrets loop: `for i in range(1, 10)`, appending each key
that exists, is truthy, and differs from the placeholder. -/
def loadFromSecrets (secrets : String → Option String) : List String :=
  (List.range' 1 9).foldl (fun acc i =>
    match secrets (keyName i) with
    | some k => if k ≠ "" ∧ k ≠ placeholder then acc ++ [k] else acc
    | none => acc) []

/-- The environment-variable loop: `for i in range(1, 10)`, appending each
truthy `os.getenv(f"GROQ_API_KEY_{i}")`. No placeholder check here. -/
def loadFromEnv (env : String → Option String) : List String :=
  (List.range' 1 9).foldl (fun acc i =>
    match env (keyName i) with
    | some k => if k ≠ "" then acc ++ [k] else acc
    | none => acc) []

/-- The layered loading of `APIKeyManager.__init__`: Streamlit secrets first
(skipped entirely when unavailable), then the numbered environment variables
when that produced nothing, then the single unsuffixed `GROQ_API_KEY`. -/
def initKeys (e : Environment) : List String :=
  let fromSecrets := if e.secretsAvailable then loadFromSecrets e.secrets else []
  let afterEnv := if fromSecrets = [] then loadFromEnv e.env else fromSecrets
  if afterEnv = [] then
    match e.env "GROQ_API_KEY" with
    | some k => if k ≠ "" then [k] else []
    | none => []
  else afterEnv

/-- Acceptance of secret number `i` by the Streamlit-secrets loop, as a
per-index option (used to characterise the list the loop builds). -/
def acceptSecret (secrets : String → Option String) (i : Nat) : Option String :=
  match secrets (keyName i) with
  | some k => if k ≠ "" ∧ k ≠ placeholder then some k else none
  | none => none

/-- Acceptance of environment key number `i` by the environment loop. -/
def acceptEnv (env : String → Option String) (i : Nat) : Option String :=
  match env (keyName i) with
  | some k => if k ≠ "" then some k else none
  | none => none

/-- The manager state: the loaded key list and the rotation index. -/
structure APIKeyManager where
  api_keys : List String
  current_index : Nat
deriving DecidableEq

/-- `APIKeyManager.__init__`: load the keys and set `current_index = 0`. -/
def APIKeyManager.init (e : Environment) : APIKeyManager :=
  { api_keys := initKeys e, current_index := 0 }

/-- `get_current_key`: raises `ValueError` on an empty pool, otherwise indexes
the list (an out-of-range index would raise `IndexError`, modelled as the
second error case). -/
def APIKeyManager.get_current_key (m : APIKeyManager) : Except String String :=
  match m.api_keys with
  | [] => Except.error "No API keys configured!"
  | _ :: _ =>
    match m.api_keys[m.current_index]? with
    | some k => Except.ok k
    | none => Except.error "list index out of range"

/-- `rotate_to_next`: with at most one key it logs a warning and returns the
sole key (or Python `None`, modelled as `none`) without touching the index;
otherwise it advances the index modulo the pool size and returns the new
current key. The result is (new state, returned key, warning emitted). -/
def APIKeyManager.rotate_to_next (m : APIKeyManager) :
    APIKeyManager × Option String × Bool :=
  if m.api_keys.length ≤ 1 then
    (m, m.api_keys.head?, true)
  else
    let newIndex := (m.current_index + 1) % m.api_keys.length
    ({ m with current_index := newIndex }, m.api_keys[newIndex]?, false)

/-- `k` successive calls to `rotate_to_next`, keeping only the state. -/
def rotateK (m : APIKeyManager) : Nat → APIKeyManager
  | 0 => m
  | k + 1 => rotateK m.rotate_to_next.1 k

/-! ## Batch loop (app.py, Analyze All Resumes, lines 205-319) -/

/-- The fields `run_complete_analysis` output is read from
(`result["parsed_resume"]`, with `.get` defaults applied downstream). -/
structure ParsedResume where
  name : String
  email : String
  phone : String
  experience_years : Int
  skills : List String
deriving DecidableEq

/-- The fields read from `result["analysis"]`. -/
structure Analysis where
  confidence_score : Int
  key_strengths : List String
  gaps : List String
  recommendation : String
deriving DecidableEq

/-- Behaviour of one `run_complete_analysis` call: it can throw, return a
falsy value (`None` or an empty dict), or return a dict carrying a status,
an optional error message, and the two payloads. -/
inductive RunResult where
  | raise (e : String)
  | noneResult
  | ok (status : String) (err : Option String) (parsed : ParsedResume) (analysis : Analysis)

/-- The dict appended to `st.session_state.all_results` on success. -/
structure CandidateRecord where
  name : String
  email : String
  phone : String
  experience_years : Int
  skills : List String
  confidence_score : Int
  shortlisted : Bool
  key_strengths : List String
  gaps : List String
  recommendation : String
  date : String
  resume_file : String
deriving DecidableEq

/-- One input document of the batch: the uploaded file together with the
behaviour of the analysis pipeline on whatever text is extracted from it. -/
structure Doc where
  file : UploadedFile
  analyze : String → RunResult

/-- State threaded through the batch loop: the two counters, the
`failed_files` list of formatted failure strings, and the accumulated
`all_results` records. -/
structure BatchState where
  successful : Nat
  failed : Nat
  failed_files : List String
  all_results : List CandidateRecord
deriving DecidableEq

/-- Python interpolation of the extraction error into the failure string
(`f"{name} - {error}"`; `str(None)` is `"None"`). -/
def errText : Option String → String
  | some e => e
  | none => "None"

/-- The record built on line 265-278: `shortlisted` is computed right here as
`confidence_score >= shortlist_threshold`, with the capture-time timestamp and
the source filename. -/
def mkRecord (threshold : Int) (now fname : String)
    (parsed : ParsedResume) (analysis : Analysis) : CandidateRecord :=
  { name := parsed.name
    email := parsed.email
    phone := parsed.phone
    experience_years := parsed.experience_years
    skills := parsed.skills
    confidence_score := analysis.confidence_score
    shortlisted := decide (analysis.confidence_score ≥ threshold)
    key_strengths := analysis.key_strengths
    gaps := analysis.gaps
    recommendation := analysis.recommendation
    date := now
    resume_file := fname }

/-- One iteration of the batch loop: extract, bail out on extraction failure,
run the analysis, and land in exactly one of the four `continue`/append arms
of the Python loop. -/
def processOne (threshold : Int) (now : String) (st : BatchState) (d : Doc) :
    BatchState :=
  if (extract_text_from_file d.file).2.1 = false then
    { st with failed := st.failed + 1,
              failed_files := st.failed_files ++
                [d.file.name ++ " - " ++ errText (extract_text_from_file d.file).2.2] }
  else
    match d.analyze (extract_text_from_file d.file).1 with
    | RunResult.raise e =>
      { st with failed := st.failed + 1,
                failed_files := st.failed_files ++ [d.file.name ++ " - Analysis error: " ++ e] }
    | RunResult.noneResult =>
      { st with failed := st.failed + 1,
                failed_files := st.failed_files ++ [d.file.name ++ " - No result returned"] }
    | RunResult.ok status err parsed analysis =>
      if status = "success" then
        { st with successful := st.successful + 1,
                  all_results := st.all_results ++ [mkRecord threshold now d.file.name parsed analysis] }
      else
        { st with failed := st.failed + 1,
                  failed_files := st.failed_files ++ [d.file.name ++ " - " ++ err.getD "Unknown error"] }

/-- The whole `for idx, uploaded_file in enumerate(uploaded_files)` loop,
starting from zero counters and empty lists. -/
def runBatch (threshold : Int) (now : String) (docs : List Doc) : BatchState :=
  docs.foldl (processOne threshold now) ⟨0, 0, [], []⟩

/-- Characterisation of a failing document: the formatted failure string the
loop would record for it, or `none` when the document yields a record. -/
def docOutcome (d : Doc) : Option String :=
  if (extract_text_from_file d.file).2.1 = false then
    some (d.file.name ++ " - " ++ errText (extract_text_from_file d.file).2.2)
  else
    match d.analyze (extract_text_from_file d.file).1 with
    | RunResult.raise e => some (d.file.name ++ " - Analysis error: " ++ e)
    | RunResult.noneResult => some (d.file.name ++ " - No result returned")
    | RunResult.ok status err _ _ =>
      if status = "success" then none
      else some (d.file.name ++ " - " ++ err.getD "Unknown error")

/-- Characterisation of a succeeding document: the record the loop would
append for it, or `none` when it fails. -/
def docRecord (threshold : Int) (now : String) (d : Doc) : Option CandidateRecord :=
  if (extract_text_from_file d.file).2.1 = false then none
  else
    match d.analyze (extract_text_from_file d.file).1 with
    | RunResult.ok status _ parsed analysis =>
      if status = "success" then some (mkRecord threshold now d.file.name parsed analysis)
      else none
    | _ => none

/-! ## Concrete inputs used by counterexamples and witnesses -/

/-- A 2-page PDF on which both libraries read page 1 and throw on page 2. -/
def pdfBothRaise : UploadedFile :=
  { name := "resume.pdf"
    ftype := Except.ok "application/pdf"
    pypdf2Pages := Except.ok [PageRead.text "Page one content", PageRead.raise "bad xref"]
    pdfplumberPages := Except.ok [PageRead.text "Page one content", PageRead.raise "bad xref"]
    docxParagraphs := Except.ok []
    decodedText := Except.ok "" }

/-- A 2-page PDF where PyPDF2 throws on page 2 and pdfplumber gets no text
from page 2. -/
def pdfMixed : UploadedFile :=
  { name := "resume.pdf"
    ftype := Except.ok "application/pdf"
    pypdf2Pages := Except.ok [PageRead.text "Page one content", PageRead.raise "bad xref"]
    pdfplumberPages := Except.ok [PageRead.text "Page one content", PageRead.noText]
    docxParagraphs := Except.ok []
    decodedText := Except.ok "" }

/-- A plain-text file holding the word `hello`. -/
def txtHello : UploadedFile :=
  { name := "resume.txt"
    ftype := Except.ok "text/plain"
    pypdf2Pages := Except.error "not a pdf"
    pdfplumberPages := Except.error "not a pdf"
    docxParagraphs := Except.error "not a docx"
    decodedText := Except.ok "hello" }

/-- A file whose media-type attribute access throws. -/
def brokenFile : UploadedFile :=
  { name := "broken"
    ftype := Except.error "boom"
    pypdf2Pages := Except.error "boom"
    pdfplumberPages := Except.error "boom"
    docxParagraphs := Except.error "boom"
    decodedText := Except.error "boom" }

/-- No Streamlit secrets; the environment holds only `GROQ_API_KEY_1` set to
the placeholder value. -/
def envPlaceholderOnly : Environment :=
  { secretsAvailable := false
    secrets := fun _ => none
    env := fun n => if n = "GROQ_API_KEY_1" then some placeholder else none }

/-- Streamlit secrets hold one real key; the environment holds another. -/
def envSecretsFirst : Environment :=
  { secretsAvailable := true
    secrets := fun n => if n = "GROQ_API_KEY_1" then some "sk-secret" else none
    env := fun n => if n = "GROQ_API_KEY_1" then some "sk-env" else none }

/-- A parsed resume used by the batch witnesses. -/
def parsedSample : ParsedResume :=
  { name := "Ada"
    email := "ada@example.com"
    phone := "N/A"
    experience_years := 5
    skills := ["Python"] }

/-- An analysis output scoring 80. -/
def analysisSample : Analysis :=
  { confidence_score := 80
    key_strengths := ["clear"]
    gaps := []
    recommendation := "Hire" }

/-- A document whose extraction and analysis both succeed. -/
def docSuccess : Doc :=
  { file := txtHello
    analyze := fun _ => RunResult.ok "success" none parsedSample analysisSample }

/-- The record the batch loop appends for `docSuccess` at threshold 70. -/
def recSuccess : CandidateRecord :=
  mkRecord 70 "2025-01-01 00:00" "resume.txt" parsedSample analysisSample

/-! ## Helper lemmas -/

/-- A successful PDF strategy always yields non-blank text. -/
theorem tryPdfStrategy_some (p : Except String (List PageRead)) (s : String)
    (h : tryPdfStrategy p = some s) : isBlank s = false := by
  rcases p with e | ps
  · simp [tryPdfStrategy] at h
  · rcases hr : readPages ps with e | t
    · simp [tryPdfStrategy, hr] at h
    · simp only [tryPdfStrategy, hr] at h
      by_cases hb : isBlank t = true
      · rw [if_pos hb] at h; cases h
      · rw [if_neg hb] at h
        injection h with h'
        subst h'
        cases htb : isBlank t with
        | false => rfl
        | true => exact absurd htb hb

/-- The dispatch body only reports success together with non-blank text. -/
theorem extractDispatch_success (f : UploadedFile) (t : String)
    (h : (extractDispatch f t).2.1 = true) :
    isBlank (extractDispatch f t).1 = false := by
  by_cases hpdf : t = "application/pdf"
  · rcases h1 : tryPdfStrategy f.pypdf2Pages with _ | s
    · rcases h2 : tryPdfStrategy f.pdfplumberPages with _ | s
      · simp [extractDispatch, hpdf, h1, h2] at h
      · have hd : extractDispatch f t = (s, true, none) := by
          simp [extractDispatch, hpdf, h1, h2]
        rw [hd]
        exact tryPdfStrategy_some _ _ h2
    · have hd : extractDispatch f t = (s, true, none) := by
        simp [extractDispatch, hpdf, h1]
      rw [hd]
      exact tryPdfStrategy_some _ _ h1
  · by_cases hdx : isDocxType t f.name = true
    · rcases hd : f.docxParagraphs with e | paras
      · simp [extractDispatch, hpdf, hdx, hd] at h
      · by_cases hb : isBlank (String.intercalate "\n" paras) = true
        · simp [extractDispatch, hpdf, hdx, hd, hb] at h
        · have he : extractDispatch f t = (String.intercalate "\n" paras, true, none) := by
            simp [extractDispatch, hpdf, hdx, hd, hb]
          rw [he]
          cases htb : isBlank (String.intercalate "\n" paras) with
          | false => rfl
          | true => exact absurd htb hb
    · rcases hd : f.decodedText with e | text
      · simp [extractDispatch, hpdf, hdx, hd] at h
      · by_cases hb : isBlank text = true
        · simp [extractDispatch, hpdf, hdx, hd, hb] at h
        · have he : extractDispatch f t = (text, true, none) := by
            simp [extractDispatch, hpdf, hdx, hd, hb]
          rw [he]
          cases htb : isBlank text with
          | false => rfl
          | true => exact absurd htb hb

/-- `rotateK` never changes the key list. -/
theorem rotateK_api_keys (k : Nat) (m : APIKeyManager) :
    (rotateK m k).api_keys = m.api_keys := by
  induction k generalizing m with
  | zero => rfl
  | succ k ih =>
    rw [rotateK, ih]
    unfold APIKeyManager.rotate_to_next
    split <;> rfl

/-- Index evolution of `rotateK` from an arbitrary in-range start index. -/
theorem rotateK_index (keys : List String) (j k : Nat) (hj : j < keys.length) :
    (rotateK (APIKeyManager.mk keys j) k).current_index = (j + k) % keys.length := by
  induction k generalizing j with
  | zero => simpa [rotateK] using (Nat.mod_eq_of_lt hj).symm
  | succ k ih =>
    by_cases h : keys.length ≤ 1
    · have hN : keys.length = 1 := by omega
      have hj0 : j = 0 := by omega
      subst hj0
      have hrot : (APIKeyManager.mk keys 0).rotate_to_next.1 = APIKeyManager.mk keys 0 := by
        unfold APIKeyManager.rotate_to_next
        rw [if_pos h]
      rw [rotateK, hrot, ih 0 (by omega)]
      simp [hN]
    · have hrot : (APIKeyManager.mk keys j).rotate_to_next.1
          = APIKeyManager.mk keys ((j + 1) % keys.length) := by
        unfold APIKeyManager.rotate_to_next
        rw [if_neg h]
      rw [rotateK, hrot, ih _ (Nat.mod_lt _ (by omega)), Nat.mod_add_mod]
      congr 1
      omega

/-- Loops of the form `acc := acc ++ [picked item]` build the `filterMap` of
the picking function. -/
theorem foldl_append_filterMap {α β : Type} (g : List β → α → List β)
    (f : α → Option β) (hg : ∀ acc x, g acc x = acc ++ (f x).toList) :
    ∀ (l : List α) (acc : List β), l.foldl g acc = acc ++ l.filterMap f := by
  intro l
  induction l with
  | nil => intro acc; simp
  | cons a t ih =>
    intro acc
    rw [List.foldl_cons, hg, ih]
    cases h : f a <;> simp [h, List.filterMap_cons]

/-- The Streamlit-secrets loop is the `filterMap` of `acceptSecret` over the
ascending index range 1..9. -/
theorem loadFromSecrets_eq (secrets : String → Option String) :
    loadFromSecrets secrets = (List.range' 1 9).filterMap (acceptSecret secrets) := by
  have hg : ∀ (acc : List String) (i : Nat),
      (match secrets (keyName i) with
        | some k => if k ≠ "" ∧ k ≠ placeholder then acc ++ [k] else acc
        | none => acc) = acc ++ (acceptSecret secrets i).toList := by
    intro acc i
    unfold acceptSecret
    cases h : secrets (keyName i) with
    | none => simp
    | some k =>
      show (if k ≠ "" ∧ k ≠ placeholder then acc ++ [k] else acc)
        = acc ++ (if k ≠ "" ∧ k ≠ placeholder then some k else none).toList
      by_cases hc : k ≠ "" ∧ k ≠ placeholder
      · rw [if_pos hc, if_pos hc]; simp
      · rw [if_neg hc, if_neg hc]; simp
  unfold loadFromSecrets
  rw [foldl_append_filterMap _ _ hg]
  simp

/-- The environment loop is the `filterMap` of `acceptEnv` over the ascending
index range 1..9. -/
theorem loadFromEnv_eq (env : String → Option String) :
    loadFromEnv env = (List.range' 1 9).filterMap (acceptEnv env) := by
  have hg : ∀ (acc : List String) (i : Nat),
      (match env (keyName i) with
        | some k => if k ≠ "" then acc ++ [k] else acc
        | none => acc) = acc ++ (acceptEnv env i).toList := by
    intro acc i
    unfold acceptEnv
    cases h : env (keyName i) with
    | none => simp
    | some k =>
      show (if k ≠ "" then acc ++ [k] else acc)
        = acc ++ (if k ≠ "" then some k else none).toList
      by_cases hc : k ≠ ""
      · rw [if_pos hc, if_pos hc]; simp
      · rw [if_neg hc, if_neg hc]; simp
  unfold loadFromEnv
  rw [foldl_append_filterMap _ _ hg]
  simp

/-- A single loop iteration, expressed through the per-document outcome and
record characterisations. -/
theorem processOne_eq (t : Int) (now : String) (st : BatchState) (d : Doc) :
    processOne t now st d =
      { successful := st.successful + (docRecord t now d).toList.length
        failed := st.failed + (docOutcome d).toList.length
        failed_files := st.failed_files ++ (docOutcome d).toList
        all_results := st.all_results ++ (docRecord t now d).toList } := by
  by_cases hs : (extract_text_from_file d.file).2.1 = false
  · simp [processOne, docOutcome, docRecord, hs]
  · cases ha : d.analyze (extract_text_from_file d.file).1 with
    | raise e => simp [processOne, docOutcome, docRecord, hs, ha]
    | noneResult => simp [processOne, docOutcome, docRecord, hs, ha]
    | ok status err parsed analysis =>
      by_cases hsc : status = "success"
      · simp [processOne, docOutcome, docRecord, hs, ha, hsc]
      · simp [processOne, docOutcome, docRecord, hs, ha, hsc]

/-- The fold underlying the batch loop, from an arbitrary start state. -/
theorem runBatch_foldl (t : Int) (now : String) (docs : List Doc) (st : BatchState) :
    docs.foldl (processOne t now) st =
      { successful := st.successful + (docs.filterMap (docRecord t now)).length
        failed := st.failed + (docs.filterMap docOutcome).length
        failed_files := st.failed_files ++ docs.filterMap docOutcome
        all_results := st.all_results ++ docs.filterMap (docRecord t now) } := by
  induction docs generalizing st with
  | nil => simp
  | cons d ds ih =>
    rw [List.foldl_cons, processOne_eq, ih]
    rcases hd : docOutcome d with _ | s <;> rcases hr : docRecord t now d with _ | r <;>
      simp [hd, hr, List.filterMap_cons, BatchState.mk.injEq, List.append_assoc] <;>
      omega

/-- The batch loop as a whole: the counters count, and the two lists collect,
the per-document outcomes in input order. -/
theorem runBatch_spec (t : Int) (now : String) (docs : List Doc) :
    runBatch t now docs =
      { successful := (docs.filterMap (docRecord t now)).length
        failed := (docs.filterMap docOutcome).length
        failed_files := docs.filterMap docOutcome
        all_results := docs.filterMap (docRecord t now) } := by
  unfold runBatch
  rw [runBatch_foldl]
  simp

/-- Every document either yields a record and no failure entry, or a failure
entry and no record. -/
theorem doc_exactly_one (t : Int) (now : String) (d : Doc) :
    (docOutcome d = none ∧ ∃ r, docRecord t now d = some r) ∨
    ((∃ s, docOutcome d = some s) ∧ docRecord t now d = none) := by
  by_cases hs : (extract_text_from_file d.file).2.1 = false
  · right
    refine ⟨⟨d.file.name ++ " - " ++ errText (extract_text_from_file d.file).2.2, ?_⟩, ?_⟩ <;>
      simp [docOutcome, docRecord, hs]
  · cases ha : d.analyze (extract_text_from_file d.file).1 with
    | raise e =>
      right
      refine ⟨⟨d.file.name ++ " - Analysis error: " ++ e, ?_⟩, ?_⟩ <;>
        simp [docOutcome, docRecord, hs, ha]
    | noneResult =>
      right
      refine ⟨⟨d.file.name ++ " - No result returned", ?_⟩, ?_⟩ <;>
        simp [docOutcome, docRecord, hs, ha]
    | ok status err parsed analysis =>
      by_cases hsc : status = "success"
      · left
        refine ⟨?_, ⟨mkRecord t now d.file.name parsed analysis, ?_⟩⟩ <;>
          simp [docOutcome, docRecord, hs, ha, hsc]
      · right
        refine ⟨⟨d.file.name ++ " - " ++ err.getD "Unknown error", ?_⟩, ?_⟩ <;>
          simp [docOutcome, docRecord, hs, ha, hsc]

/-- The records and the failure entries partition the input documents. -/
theorem docs_partition_length (t : Int) (now : String) (docs : List Doc) :
    (docs.filterMap (docRecord t now)).length + (docs.filterMap docOutcome).length
      = docs.length := by
  induction docs with
  | nil => rfl
  | cons d ds ih =>
    rcases doc_exactly_one t now d with ⟨h1, r, h2⟩ | ⟨⟨s, h1⟩, h2⟩ <;>
      simp [List.filterMap_cons, h1, h2] <;> omega

/-- Any record the loop appends carries the threshold comparison in its
`shortlisted` field. -/
theorem docRecord_shortlisted (t : Int) (now : String) (d : Doc) (r : CandidateRecord)
    (h : docRecord t now d = some r) :
    r.shortlisted = decide (r.confidence_score ≥ t) := by
  by_cases hs : (extract_text_from_file d.file).2.1 = false
  · simp [docRecord, hs] at h
  · cases ha : d.analyze (extract_text_from_file d.file).1 with
    | raise e => simp [docRecord, hs, ha] at h
    | noneResult => simp [docRecord, hs, ha] at h
    | ok status err parsed analysis =>
      by_cases hsc : status = "success"
      · have h' : mkRecord t now d.file.name parsed analysis = r := by
          simpa [docRecord, hs, ha, hsc] using h
        subst h'
        rfl
      · simp [docRecord, hs, ha, hsc] at h

/-! ## Claim theorems -/

/-- C1: for every batch run over any list of input documents, after the loop
finishes the successful count plus the failed count equals the number of input
documents, and each iteration increments exactly one of the two counts. -/
theorem batch_counts (t : Int) (now : String) (docs : List Doc) :
    ((runBatch t now docs).successful + (runBatch t now docs).failed = docs.length) ∧
    (∀ (st : BatchState) (d : Doc),
      ((processOne t now st d).successful = st.successful + 1 ∧
        (processOne t now st d).failed = st.failed) ∨
      ((processOne t now st d).successful = st.successful ∧
        (processOne t now st d).failed = st.failed + 1)) := by
  constructor
  · rw [runBatch_spec]
    exact docs_partition_length t now docs
  · intro st d
    rcases doc_exactly_one t now d with ⟨h1, r, h2⟩ | ⟨⟨s, h1⟩, h2⟩
    · left
      rw [processOne_eq]
      simp [h1, h2]
    · right
      rw [processOne_eq]
      simp [h1, h2]

/-- C2 counterexample: a 2-page PDF whose page 2 raises under both libraries
while page 1 yields non-blank text is a failure, not a success carrying the
page-1 text: the page-level exception aborts the whole strategy. -/
theorem pdf_page_raise_counterexample :
    extract_text_from_file pdfBothRaise
      = ("", false, some "Could not extract text from PDF") ∧
    extract_text_from_file pdfBothRaise ≠ ("Page one content", true, none) :=
  ⟨by decide, by decide⟩

/-- C2 amended: within a strategy a page returning no text is skipped, but a
page that raises aborts that strategy, discarding its partial text, and the
next strategy is tried from the start of the document; the document succeeds
with the text of the first strategy that completes with non-blank
concatenated text. Here PyPDF2 raises on page 2 and is abandoned, then
pdfplumber reads page 1, skips the empty page 2, and wins. -/
theorem extract_pdf_page_raise_aborts (f : UploadedFile) (s e : String)
    (ht : f.ftype = Except.ok "application/pdf")
    (h1 : f.pypdf2Pages = Except.ok [PageRead.text s, PageRead.raise e])
    (h2 : f.pdfplumberPages = Except.ok [PageRead.text s, PageRead.noText])
    (hs : isBlank s = false) :
    extract_text_from_file f = (s, true, none) := by
  have e1 : tryPdfStrategy f.pypdf2Pages = none := by
    rw [h1]
    rfl
  have e2 : tryPdfStrategy f.pdfplumberPages = some s := by
    rw [h2]
    simp [tryPdfStrategy, show readPages [PageRead.text s, PageRead.noText]
      = Except.ok s from rfl, hs]
  simp [extract_text_from_file, ht, extractDispatch, e1, e2]

/-- C2 amended, witness at a concrete 2-page document. -/
theorem extract_pdf_page_raise_aborts_witness :
    pdfMixed.ftype = Except.ok "application/pdf" ∧
    pdfMixed.pypdf2Pages
      = Except.ok [PageRead.text "Page one content", PageRead.raise "bad xref"] ∧
    pdfMixed.pdfplumberPages
      = Except.ok [PageRead.text "Page one content", PageRead.noText] ∧
    isBlank "Page one content" = false ∧
    extract_text_from_file pdfMixed = ("Page one content", true, none) :=
  ⟨rfl, rfl, rfl, by decide,
    extract_pdf_page_raise_aborts pdfMixed "Page one content" "bad xref"
      rfl rfl rfl (by decide)⟩

/-- C3: starting from index 0 over a non-empty pool, k rotations leave
`current_index` at k mod N. -/
theorem rotate_index_mod (keys : List String) (k : Nat) (h : keys ≠ []) :
    (rotateK (APIKeyManager.mk keys 0) k).current_index = k % keys.length := by
  simpa using rotateK_index keys 0 k (List.length_pos.mpr h)

/-- C3 witness: 5 rotations over a pool of 3 land on index 2. -/
theorem rotate_index_mod_witness :
    (["a", "b", "c"] : List String) ≠ [] ∧
    (rotateK (APIKeyManager.mk ["a", "b", "c"] 0) 5).current_index
      = 5 % (["a", "b", "c"] : List String).length :=
  ⟨by decide, rotate_index_mod ["a", "b", "c"] 5 (by decide)⟩

/-- C4: with at most one key, rotation leaves the index unchanged, emits the
warning signal, still returns the sole key when there is one, and returns
nothing (Python `None`) when the pool is empty. -/
theorem rotate_single_key_noop (m : APIKeyManager) (h : m.api_keys.length ≤ 1) :
    m.rotate_to_next.1.current_index = m.current_index ∧
    m.rotate_to_next.2.2 = true ∧
    (∀ k, m.api_keys = [k] → m.rotate_to_next.2.1 = some k) ∧
    (m.api_keys = [] → m.rotate_to_next.2.1 = none) := by
  unfold APIKeyManager.rotate_to_next
  rw [if_pos h]
  refine ⟨rfl, rfl, ?_, ?_⟩
  · intro k hk
    rw [hk]
    rfl
  · intro hk
    rw [hk]
    rfl

/-- C4 witness at a one-key manager. -/
theorem rotate_single_key_noop_witness :
    (APIKeyManager.mk ["k1"] 0).api_keys.length ≤ 1 ∧
    ((APIKeyManager.mk ["k1"] 0).rotate_to_next.1.current_index
        = (APIKeyManager.mk ["k1"] 0).current_index ∧
      (APIKeyManager.mk ["k1"] 0).rotate_to_next.2.2 = true ∧
      (∀ k, (APIKeyManager.mk ["k1"] 0).api_keys = [k] →
        (APIKeyManager.mk ["k1"] 0).rotate_to_next.2.1 = some k) ∧
      ((APIKeyManager.mk ["k1"] 0).api_keys = [] →
        (APIKeyManager.mk ["k1"] 0).rotate_to_next.2.1 = none)) :=
  ⟨by decide, rotate_single_key_noop (APIKeyManager.mk ["k1"] 0) (by decide)⟩

/-- C5: the batch records, for every failing document and in input order, the
formatted `filename - reason` entry; the failed count matches the entry count;
and the loop consumes documents one at a time in input order (appending one
more document means running one more iteration on the accumulated state). -/
theorem batch_failures_in_order (t : Int) (now : String) (docs : List Doc) :
    (runBatch t now docs).failed_files = docs.filterMap docOutcome ∧
    (runBatch t now docs).failed = (docs.filterMap docOutcome).length ∧
    ∀ d, runBatch t now (docs ++ [d]) = processOne t now (runBatch t now docs) d := by
  refine ⟨?_, ?_, ?_⟩
  · rw [runBatch_spec]
  · rw [runBatch_spec]
  · intro d
    unfold runBatch
    rw [List.foldl_append]
    rfl

/-- C6: every record the batch stores has its `shortlisted` flag equal to the
comparison of its confidence score with the caller-supplied threshold. -/
theorem shortlisted_matches_threshold (t : Int) (now : String) (docs : List Doc)
    (r : CandidateRecord) (hr : r ∈ (runBatch t now docs).all_results) :
    r.shortlisted = decide (r.confidence_score ≥ t) := by
  rw [runBatch_spec] at hr
  obtain ⟨d, -, hd⟩ := List.mem_filterMap.mp hr
  exact docRecord_shortlisted t now d r hd

/-- C6 witness: a stored record at threshold 70 with score 80 is shortlisted. -/
theorem shortlisted_matches_threshold_witness :
    recSuccess ∈ (runBatch 70 "2025-01-01 00:00" [docSuccess]).all_results ∧
    recSuccess.shortlisted = decide (recSuccess.confidence_score ≥ 70) :=
  ⟨by decide,
    shortlisted_matches_threshold 70 "2025-01-01 00:00" [docSuccess] recSuccess (by decide)⟩

/-- C7 counterexample: with no Streamlit secrets and the environment holding
only `GROQ_API_KEY_1` set to the placeholder value, initialization loads the
placeholder into the pool: the environment source does not ignore it. -/
theorem placeholder_loaded_from_env :
    (APIKeyManager.init envPlaceholderOnly).api_keys = [placeholder] ∧
    placeholder ∈ (APIKeyManager.init envPlaceholderOnly).api_keys :=
  ⟨by decide, by decide⟩

/-- C7 amended: credential loading walks the layered sources in priority
order, stopping at the first source yielding at least one credential -
Streamlit secrets for numbered keys 1..9, then numbered environment
variables, then the single unsuffixed fallback key; empty values are ignored
everywhere, but the placeholder value is ignored only by the secret-store
source; within a source the order is numeric ascending (each loop equals the
filterMap of its per-index acceptance over the ascending range 1..9). -/
theorem initKeys_layered (e : Environment) :
    (∀ k, k ∈ loadFromSecrets e.secrets → k ≠ "" ∧ k ≠ placeholder) ∧
    loadFromSecrets e.secrets = (List.range' 1 9).filterMap (acceptSecret e.secrets) ∧
    loadFromEnv e.env = (List.range' 1 9).filterMap (acceptEnv e.env) ∧
    (e.secretsAvailable = true → loadFromSecrets e.secrets ≠ [] →
      initKeys e = loadFromSecrets e.secrets) ∧
    ((e.secretsAvailable = false ∨ loadFromSecrets e.secrets = []) →
      loadFromEnv e.env ≠ [] → initKeys e = loadFromEnv e.env) ∧
    ((e.secretsAvailable = false ∨ loadFromSecrets e.secrets = []) →
      loadFromEnv e.env = [] → ∀ k, e.env "GROQ_API_KEY" = some k → k ≠ "" →
      initKeys e = [k]) ∧
    ((APIKeyManager.init e).api_keys = initKeys e ∧
      (APIKeyManager.init e).current_index = 0) := by
  refine ⟨?_, loadFromSecrets_eq e.secrets, loadFromEnv_eq e.env, ?_, ?_, ?_, rfl, rfl⟩
  · intro k hk
    rw [loadFromSecrets_eq] at hk
    obtain ⟨i, -, hi⟩ := List.mem_filterMap.mp hk
    unfold acceptSecret at hi
    cases h : e.secrets (keyName i) with
    | none => rw [h] at hi; cases hi
    | some v =>
      rw [h] at hi
      have hi2 : (if v ≠ "" ∧ v ≠ placeholder then some v else none) = some k := hi
      by_cases hc : v ≠ "" ∧ v ≠ placeholder
      · rw [if_pos hc] at hi2
        injection hi2 with hi'
        subst hi'
        exact hc
      · rw [if_neg hc] at hi2
        cases hi2
  · intro hsa hne
    simp [initKeys, hsa, hne]
  · intro hsa hne
    have hsec : (if e.secretsAvailable = true then loadFromSecrets e.secrets else []) = [] := by
      rcases hsa with hsa | hsa
      · rw [hsa]
        simp
      · rw [hsa]
        simp
    simp [initKeys, hsec, hne]
  · intro hsa hev k hk hkne
    have hsec : (if e.secretsAvailable = true then loadFromSecrets e.secrets else []) = [] := by
      rcases hsa with hsa | hsa
      · rw [hsa]
        simp
      · rw [hsa]
        simp
    simp [initKeys, hsec, hev, hk, hkne]

/-- C7 amended, witness: with a real key in the secrets source, the secrets
layer wins. -/
theorem initKeys_layered_witness :
    envSecretsFirst.secretsAvailable = true ∧
    loadFromSecrets envSecretsFirst.secrets ≠ [] ∧
    initKeys envSecretsFirst = loadFromSecrets envSecretsFirst.secrets :=
  ⟨rfl, by decide,
    (initKeys_layered envSecretsFirst).2.2.2.1 rfl (by decide)⟩

/-- C8: whenever extraction reports success, the returned text is non-blank
(it does not consist solely of whitespace). -/
theorem extract_success_nonblank (f : UploadedFile)
    (h : (extract_text_from_file f).2.1 = true) :
    isBlank (extract_text_from_file f).1 = false := by
  rcases hf : f.ftype with e | t
  · rw [show extract_text_from_file f
        = ("", false, some ("Unexpected error: " ++ e)) by
      simp [extract_text_from_file, hf]] at h
    cases h
  · have heq : extract_text_from_file f = extractDispatch f t := by
      simp [extract_text_from_file, hf]
    rw [heq] at h ⊢
    exact extractDispatch_success f t h

/-- C8 witness: a plain-text file reading `hello`. -/
theorem extract_success_nonblank_witness :
    (extract_text_from_file txtHello).2.1 = true ∧
    isBlank (extract_text_from_file txtHello).1 = false :=
  ⟨by decide, extract_success_nonblank txtHello (by decide)⟩

/-- C9: `get_current_key` fails with the no-keys configuration error on an
empty pool and never returns a value there; on a non-empty pool with an
in-range index it returns the key at `current_index`. -/
theorem get_current_key_spec (m : APIKeyManager) :
    (m.api_keys = [] → m.get_current_key = Except.error "No API keys configured!") ∧
    (∀ h : m.current_index < m.api_keys.length,
      m.get_current_key = Except.ok m.api_keys[m.current_index]) := by
  constructor
  · intro h
    simp [APIKeyManager.get_current_key, h]
  · intro h
    obtain ⟨keys, idx⟩ := m
    cases keys with
    | nil => simp at h
    | cons a tl =>
      simp [APIKeyManager.get_current_key, List.getElem?_eq_getElem h]

/-- C9 witness at a two-key manager pointing at index 1. -/
theorem get_current_key_spec_witness :
    (APIKeyManager.mk ["a", "b"] 1).current_index
      < (APIKeyManager.mk ["a", "b"] 1).api_keys.length ∧
    (APIKeyManager.mk ["a", "b"] 1).get_current_key = Except.ok "b" :=
  ⟨by decide, (get_current_key_spec (APIKeyManager.mk ["a", "b"] 1)).2 (by decide)⟩

/-- C10: `extract_text_from_file` is total at its interface: on any input
whose media-type read succeeds it returns the dispatch triple, and any
exception escaping the branch dispatch is converted by the outermost handler
into the `Unexpected error` failure triple. -/
theorem extract_total (f : UploadedFile) :
    (∀ e, f.ftype = Except.error e →
      extract_text_from_file f = ("", false, some ("Unexpected error: " ++ e))) ∧
    (∀ t, f.ftype = Except.ok t → extract_text_from_file f = extractDispatch f t) := by
  constructor <;> intro x hx <;> simp [extract_text_from_file, hx]

/-- C10 witness: a file whose type attribute read throws. -/
theorem extract_total_witness :
    brokenFile.ftype = Except.error "boom" ∧
    extract_text_from_file brokenFile
      = ("", false, some ("Unexpected error: " ++ "boom")) :=
  ⟨rfl, (extract_total brokenFile).1 "boom" rfl⟩

end HR
